import Mathlib

/-!
Shallow embedding of `scripts/convert_model.py`: a command-line utility that
downloads pretrained super-resolution weights, instantiates the matching
architecture, loads the weights and exports the model to ONNX.

Modelling choices:
* Python exceptions become an explicit `Exc` sum type; fallible steps return
  `Except Exc _`.
* The process state (`St`) carries the global `MODELS` dictionary (threaded
  explicitly so that mutation of the table would be observable), the
  filesystem (an association list from path to an abstract content id) and a
  log of URLs fetched over the network.
* Calls into third-party libraries (urllib, torch.load, load_state_dict,
  torch.onnx.export, onnx.checker) are parameters collected in an `Oracle`
  record: their behaviour is outside this repository, only the order in which
  the script invokes them and how it reacts to their results is modelled.
* `print` calls are not modelled except where a claim is about what is
  printed: the `--list` branch records the model names it prints, and
  the guard on the third-party imports records its fixed install message.
-/

namespace ConvertModel

/-- Python exceptions that the script can raise or observe. -/
inductive Exc where
  | keyError (key : String)
  | notImplementedError (msg : String)
  | valueError (msg : String)
  | otherError (msg : String)
  deriving DecidableEq, Repr

instance {ε α : Type} [DecidableEq ε] [DecidableEq α] : DecidableEq (Except ε α) := fun x y =>
  match x, y with
  | .error e, .error f => decidable_of_iff (e = f) (by simp)
  | .ok a, .ok b => decidable_of_iff (a = b) (by simp)
  | .error _, .ok _ => isFalse fun h => Except.noConfusion h
  | .ok _, .error _ => isFalse fun h => Except.noConfusion h

/-- One entry of the `MODELS` dict. Python dict entries are heterogeneous and
a key may be absent, so every field is an `Option`; a `none` field models a
missing key (dict access then raises `KeyError`). -/
structure ModelInfo where
  url : Option String
  scale : Option Nat
  arch : Option String
  num_feat : Option Nat
  num_conv : Option Nat
  num_block : Option Nat
  pro : Option Bool
  description : Option String
  deriving DecidableEq, Repr

/-- Python dict lookup on an association list: first binding wins,
`none` models `KeyError`. -/
def dget {α : Type} : List (String × α) → String → Option α
  | [], _ => none
  | (k, v) :: rest, key => if key = k then some v else dget rest key

/-- The module-level `MODELS` configuration table, entry for entry from the
source (insertion order preserved; absent dict keys are `none`). -/
def MODELS : List (String × ModelInfo) :=
  [ ("realesrgan-anime-fast",
     { url := some "https://github.com/xinntao/Real-ESRGAN/releases/download/v0.2.5.0/realesr-animevideov3.pth"
       scale := some 4
       arch := some "SRVGGNetCompact"
       num_feat := some 64
       num_conv := some 16
       num_block := none
       pro := none
       description := some "Real-ESRGAN Anime Fast (animevideov3) - Fast anime upscaling" }),
    ("realesrgan-anime-plus",
     { url := some "https://github.com/xinntao/Real-ESRGAN/releases/download/v0.2.2.4/RealESRGAN_x4plus_anime_6B.pth"
       scale := some 4
       arch := some "RRDBNet"
       num_feat := some 64
       num_conv := none
       num_block := some 6
       pro := none
       description := some "Real-ESRGAN Anime Plus - High quality anime upscaling" }),
    ("realesrgan-general-fast",
     { url := some "https://github.com/xinntao/Real-ESRGAN/releases/download/v0.2.5.0/realesr-general-x4v3.pth"
       scale := some 4
       arch := some "SRVGGNetCompact"
       num_feat := some 64
       num_conv := some 32
       num_block := none
       pro := none
       description := some "Real-ESRGAN General Fast - Fast general content upscaling" }),
    ("realesrgan-general-plus",
     { url := some "https://github.com/xinntao/Real-ESRGAN/releases/download/v0.1.0/RealESRGAN_x4plus.pth"
       scale := some 4
       arch := some "RRDBNet"
       num_feat := some 64
       num_conv := none
       num_block := some 23
       pro := none
       description := some "Real-ESRGAN General Plus - High quality general upscaling" }),
    ("realcugan-2x",
     { url := some "https://github.com/bilibili/ailab/releases/download/Real-CUGAN/up2x-latest-denoise3x.pth"
       scale := some 2
       arch := some "CUGAN"
       num_feat := none
       num_conv := none
       num_block := none
       pro := some false
       description := some "Real-CUGAN 2x - Conservative anime upscaling with denoising" }),
    ("realcugan-4x",
     { url := some "https://github.com/bilibili/ailab/releases/download/Real-CUGAN/up4x-latest-denoise3x.pth"
       scale := some 4
       arch := some "CUGAN"
       num_feat := none
       num_conv := none
       num_block := none
       pro := some false
       description := some "Real-CUGAN 4x - High quality anime upscaling with denoising" }) ]

/-- Process state: the global `MODELS` table (threaded to make any mutation
observable), the filesystem (path to abstract content id, most recent write
first) and the log of URLs fetched over the network. -/
structure St where
  models : List (String × ModelInfo)
  files : List (String × Nat)
  fetched : List String
  deriving DecidableEq, Repr

/-- `os.path.exists`. -/
def pathExists (files : List (String × Nat)) (p : String) : Bool :=
  (dget files p).isSome

/-- A constructed `torch.nn.Module` is recorded by the architecture
constructor and the arguments the script passes to it. -/
inductive TorchModule where
  | srvgg (num_in_ch num_out_ch num_feat num_conv upscale : Nat) (act_type : String)
  | rrdb (num_in_ch num_out_ch num_feat num_block num_grow_ch scale : Nat)
  deriving DecidableEq, Repr

/-- Behaviour of the third-party libraries the script calls into.
Contents and loaded objects are abstract ids (`Nat`). -/
structure Oracle where
  net : String → Nat
  torchLoad : Nat → Except Exc Nat
  hasKey : Nat → String → Bool
  getItem : Nat → String → Nat
  loadStateDict : TorchModule → Nat → Except Exc Unit
  exportOnnx : TorchModule → Nat → Nat → Nat → Except Exc Nat
  onnxCheck : Nat → Except Exc Unit

/-- `download_model(model_name, output_dir)`: ensure the weight file is
present, fetching it over the network only when the path does not exist;
returns the `.pth` path. -/
def download_model (net : String → Nat) (model_name : String) (output_dir : String)
    (st : St) : St × Except Exc String :=
  match dget st.models model_name with
  | none => (st, .error (.keyError model_name))
  | some model_info =>
    let pth_path := output_dir ++ "/" ++ model_name ++ ".pth"
    if pathExists st.files pth_path then
      (st, .ok pth_path)
    else
      match model_info.url with
      | none => (st, .error (.keyError "url"))
      | some url =>
        ({ st with
            files := (pth_path, net url) :: st.files
            fetched := st.fetched ++ [url] },
         .ok pth_path)

/-- `create_model(model_name)`: build the architecture object for the entry's
`arch` family, raise `NotImplementedError` on the CUGAN branch and
`ValueError` on an unknown architecture. Dict accesses follow the source's
evaluation order. -/
def create_model (st : St) (model_name : String) : St × Except Exc TorchModule :=
  (st,
    match dget st.models model_name with
    | none => .error (.keyError model_name)
    | some model_info =>
      match model_info.arch with
      | none => .error (.keyError "arch")
      | some a =>
        if a = "SRVGGNetCompact" then
          match model_info.num_feat with
          | none => .error (.keyError "num_feat")
          | some nf =>
            match model_info.num_conv with
            | none => .error (.keyError "num_conv")
            | some nc =>
              match model_info.scale with
              | none => .error (.keyError "scale")
              | some sc => .ok (.srvgg 3 3 nf nc sc "prelu")
        else if a = "RRDBNet" then
          match model_info.num_feat with
          | none => .error (.keyError "num_feat")
          | some nf =>
            match model_info.num_block with
            | none => .error (.keyError "num_block")
            | some nb =>
              match model_info.scale with
              | none => .error (.keyError "scale")
              | some sc => .ok (.rrdb 3 3 nf nb 32 sc)
        else if a = "CUGAN" then
          .error (.notImplementedError "Real-CUGAN conversion requires additional setup")
        else
          .error (.valueError ("Unknown architecture: " ++ a)))

/-- `convert_to_onnx(model_name, output_dir, input_height, input_width,
opset_version)`: header prints (which access `description` and `scale`),
download, build, `torch.load` + `params_ema`/`params` unwrapping,
`load_state_dict`, export to `<name>.onnx`, then `onnx` verification;
returns the `.onnx` path. -/
def convert_to_onnx (orc : Oracle) (model_name : String) (output_dir : String)
    (input_height input_width opset_version : Nat) (st : St) :
    St × Except Exc String :=
  match dget st.models model_name with
  | none => (st, .error (.keyError model_name))
  | some model_info =>
    match model_info.description with
    | none => (st, .error (.keyError "description"))
    | some _ =>
      match model_info.scale with
      | none => (st, .error (.keyError "scale"))
      | some _ =>
        match download_model orc.net model_name output_dir st with
        | (st1, .error e) => (st1, .error e)
        | (st1, .ok pth_path) =>
          match create_model st1 model_name with
          | (st2, .error e) => (st2, .error e)
          | (st2, .ok model) =>
            match dget st2.files pth_path with
            | none => (st2, .error (.otherError "No such file or directory"))
            | some content =>
              match orc.torchLoad content with
              | .error e => (st2, .error e)
              | .ok raw =>
                let state_dict :=
                  if orc.hasKey raw "params_ema" then orc.getItem raw "params_ema"
                  else if orc.hasKey raw "params" then orc.getItem raw "params"
                  else raw
                match orc.loadStateDict model state_dict with
                | .error e => (st2, .error e)
                | .ok _ =>
                  let onnx_path := output_dir ++ "/" ++ model_name ++ ".onnx"
                  match orc.exportOnnx model input_height input_width opset_version with
                  | .error e => (st2, .error e)
                  | .ok onnx_bytes =>
                    let st3 := { st2 with files := (onnx_path, onnx_bytes) :: st2.files }
                    match orc.onnxCheck onnx_bytes with
                    | .error e => (st3, .error e)
                    | .ok _ => (st3, .ok onnx_path)

/-- Parsed command-line arguments (post `argparse`). -/
structure Args where
  model : Option String
  all : Bool
  list : Bool
  output_dir : Option String
  deriving DecidableEq, Repr

/-- The default output directory `os.path.join(dirname(dirname(__file__)),
'public', 'models')`, i.e. `public/models` under the repository root. -/
def default_output_dir : String := "public/models"

/-- `if args.output_dir: ... else: <default>` — note Python truthiness: an
empty string also selects the default. -/
def resolve_output_dir (od : Option String) : String :=
  match od with
  | some d => if d = "" then default_output_dir else d
  | none => default_output_dir

/-- The `--list` branch: for each table entry print the name, then its
`scale`, `arch` and `description` (each a dict access that can raise).
Returns the names printed and whether the loop completed. -/
def list_models : List (String × ModelInfo) → List String × Except Exc Unit
  | [] => ([], .ok ())
  | (name, info) :: rest =>
    match info.scale with
    | none => ([name], .error (.keyError "scale"))
    | some _ =>
      match info.arch with
      | none => ([name], .error (.keyError "arch"))
      | some _ =>
        match info.description with
        | none => ([name], .error (.keyError "description"))
        | some _ =>
          let r := list_models rest
          (name :: r.1, r.2)

/-- How one iteration of the `--all` loop ended: the conversion succeeded, or
its exception was caught by `except NotImplementedError` (printed as
"Skipping"), or by `except Exception` (printed as "Error converting"). -/
inductive Outcome where
  | success (onnx_path : String)
  | skipped (msg : String)
  | errored (e : Exc)
  deriving DecidableEq, Repr

/-- The handler chain of the `--all` loop: `except NotImplementedError`
first, then `except Exception`. -/
def catch_in_all : Except Exc String → Outcome
  | .ok p => .success p
  | .error (.notImplementedError m) => .skipped m
  | .error e => .errored e

/-- The `--all` loop body over the table's keys: convert each model, catching
every exception per model and continuing with the rest. -/
def convert_all (orc : Oracle) (output_dir : String) :
    List String → St → St × List (String × Outcome)
  | [], st => (st, [])
  | name :: rest, st =>
    let r := convert_to_onnx orc name output_dir 480 640 17 st
    let tail := convert_all orc output_dir rest r.1
    (tail.1, (name, catch_in_all r.2) :: tail.2)

/-- What a run of `main()` did: final state, model names printed by
`--list`, per-model outcomes of the `--all` loop, and normal return
(`.ok`) versus an uncaught exception (`.error`). -/
structure MainResult where
  st : St
  listed : List String
  attempts : List (String × Outcome)
  result : Except Exc Unit
  deriving DecidableEq, Repr

/-- `main()` after argument parsing: `--list` first, then `--all`, then a
single positional model (whose conversion errors propagate uncaught), then
the no-argument help text. -/
def main (orc : Oracle) (args : Args) (st : St) : MainResult :=
  let output_dir := resolve_output_dir args.output_dir
  if args.list then
    let r := list_models st.models
    ⟨st, r.1, [], r.2⟩
  else if args.all then
    let r := convert_all orc output_dir (st.models.map Prod.fst) st
    ⟨r.1, [], r.2, .ok ()⟩
  else
    match args.model with
    | some name =>
      let r := convert_to_onnx orc name output_dir 480 640 17 st
      ⟨r.1, [], [], r.2.map fun _ => ()⟩
    | none => ⟨st, [], [], .ok ()⟩

/-- The fixed message printed by the import guard when `basicsr` or
`realesrgan` cannot be imported. -/
def install_message : List String :=
  ["Please install required packages:",
   "  pip install torch onnx basicsr realesrgan"]

/-- Result of running the script: either the module-level import guard
printed its message and exited, or `main()` ran. -/
inductive ScriptResult where
  | depExit (code : Nat) (msg : List String) (st : St)
  | ran (r : MainResult)
  deriving DecidableEq, Repr

/-- The whole script: the `try: import ... except ImportError` guard runs at
module load, before `argparse` and before any download, build or export
work; only if the imports succeed does `main()` run. -/
def run_script (deps_ok : Bool) (orc : Oracle) (args : Args) (st : St) : ScriptResult :=
  if deps_ok then .ran (main orc args st) else .depExit 1 install_message st

/-- A concrete oracle on which every external call succeeds; used to
evaluate the model on closed inputs. -/
def okOracle : Oracle :=
  { net := fun _ => 1
    torchLoad := fun _ => .ok 0
    hasKey := fun _ _ => false
    getItem := fun _ _ => 0
    loadStateDict := fun _ _ => .ok ()
    exportOnnx := fun _ _ _ _ => .ok 7
    onnxCheck := fun _ => .ok () }

/-- The initial state of a fresh run: the literal `MODELS` table, an empty
filesystem and no fetches. -/
def st0 : St := ⟨MODELS, [], []⟩

/-- `download_model` preserves the table, touches no path other than the
`.pth` path, and on success returns exactly that path, which then exists. -/
lemma download_model_state (net : String → Nat) (name out : String) (st : St) :
    (download_model net name out st).1.models = st.models
    ∧ (∀ q, q ≠ out ++ "/" ++ name ++ ".pth" →
        dget (download_model net name out st).1.files q = dget st.files q)
    ∧ (∀ st' p, download_model net name out st = (st', .ok p) →
        p = out ++ "/" ++ name ++ ".pth" ∧ pathExists st'.files p = true) := by
  unfold download_model
  cases hdg : dget st.models name with
  | none =>
    exact ⟨rfl, fun q _ => rfl, fun st' p hp => by simp at hp⟩
  | some info =>
    dsimp only
    by_cases hex : pathExists st.files (out ++ "/" ++ name ++ ".pth") = true
    · rw [if_pos hex]
      refine ⟨rfl, fun q _ => rfl, fun st' p hp => ?_⟩
      injection hp with h1 h2
      injection h2 with h3
      subst h1
      subst h3
      exact ⟨rfl, hex⟩
    · rw [if_neg hex]
      cases hu : info.url with
      | none =>
        exact ⟨rfl, fun q _ => rfl, fun st' p hp => by simp at hp⟩
      | some u =>
        dsimp only
        refine ⟨rfl, fun q hq => ?_, fun st' p hp => ?_⟩
        · show dget ((out ++ "/" ++ name ++ ".pth", net u) :: st.files) q = dget st.files q
          rw [dget, if_neg hq]
        · injection hp with h1 h2
          injection h2 with h3
          subst h1
          subst h3
          refine ⟨rfl, ?_⟩
          simp [pathExists, dget]

/-- `create_model` returns its state unchanged. -/
lemma create_model_fst (st : St) (name : String) : (create_model st name).1 = st := rfl

/-- `convert_to_onnx` preserves the table, touches no path other than the
model's `.pth` and `.onnx` paths, and on success returns exactly the
`.onnx` path, which then exists. -/
lemma convert_to_onnx_state (orc : Oracle) (name out : String) (h w ops : Nat) (st : St) :
    (convert_to_onnx orc name out h w ops st).1.models = st.models
    ∧ (∀ q, q ≠ out ++ "/" ++ name ++ ".onnx" → q ≠ out ++ "/" ++ name ++ ".pth" →
        dget (convert_to_onnx orc name out h w ops st).1.files q = dget st.files q)
    ∧ (∀ st' p, convert_to_onnx orc name out h w ops st = (st', .ok p) →
        p = out ++ "/" ++ name ++ ".onnx" ∧ pathExists st'.files p = true) := by
  obtain ⟨hdm, hdf, hdo⟩ := download_model_state orc.net name out st
  unfold convert_to_onnx
  cases hdg : dget st.models name with
  | none =>
    try dsimp only
    exact ⟨rfl, fun q _ _ => rfl, fun st' p hp => by simp at hp⟩
  | some info =>
    try dsimp only
    cases hdd : info.description with
    | none =>
      try dsimp only
      exact ⟨rfl, fun q _ _ => rfl, fun st' p hp => by simp at hp⟩
    | some d =>
      try dsimp only
      cases hds : info.scale with
      | none =>
        try dsimp only
        exact ⟨rfl, fun q _ _ => rfl, fun st' p hp => by simp at hp⟩
      | some sc =>
        try dsimp only
        cases hdl : download_model orc.net name out st with
        | mk st1 r1 =>
          try dsimp only
          rw [hdl] at hdm hdf
          cases r1 with
          | error e =>
            try dsimp only
            exact ⟨hdm, fun q _ hq2 => hdf q hq2, fun st' p hp => by simp at hp⟩
          | ok pth =>
            try dsimp only
            obtain ⟨hp1, hpex⟩ := hdo st1 pth hdl
            subst hp1
            cases hcm : create_model st1 name with
            | mk st2 r2 =>
              try dsimp only
              have hst2 : st1 = st2 := congrArg Prod.fst hcm
              subst hst2
              cases r2 with
              | error e =>
                try dsimp only
                exact ⟨hdm, fun q _ hq2 => hdf q hq2, fun st' p hp => by simp at hp⟩
              | ok model =>
                try dsimp only
                cases hgc : dget st1.files (out ++ "/" ++ name ++ ".pth") with
                | none =>
                  try dsimp only
                  exact ⟨hdm, fun q _ hq2 => hdf q hq2, fun st' p hp => by simp at hp⟩
                | some content =>
                  try dsimp only
                  cases htl : orc.torchLoad content with
                  | error e =>
                    try dsimp only
                    exact ⟨hdm, fun q _ hq2 => hdf q hq2, fun st' p hp => by simp at hp⟩
                  | ok raw =>
                    try dsimp only
                    cases hlsd : orc.loadStateDict model
                        (if orc.hasKey raw "params_ema" then orc.getItem raw "params_ema"
                         else if orc.hasKey raw "params" then orc.getItem raw "params"
                         else raw) with
                    | error e =>
                      try dsimp only
                      exact ⟨hdm, fun q _ hq2 => hdf q hq2, fun st' p hp => by simp at hp⟩
                    | ok u =>
                      try dsimp only
                      cases hexp : orc.exportOnnx model h w ops with
                      | error e =>
                        try dsimp only
                        exact ⟨hdm, fun q _ hq2 => hdf q hq2, fun st' p hp => by simp at hp⟩
                      | ok onnx_bytes =>
                        try dsimp only
                        cases hck : orc.onnxCheck onnx_bytes with
                        | error e =>
                          try dsimp only
                          refine ⟨hdm, fun q hq1 hq2 => ?_, fun st' p hp => by simp at hp⟩
                          show dget ((out ++ "/" ++ name ++ ".onnx", onnx_bytes) :: st1.files) q
                              = dget st.files q
                          rw [dget, if_neg hq1]
                          exact hdf q hq2
                        | ok v =>
                          try dsimp only
                          refine ⟨hdm, fun q hq1 hq2 => ?_, fun st' p hp => ?_⟩
                          · show dget ((out ++ "/" ++ name ++ ".onnx", onnx_bytes) :: st1.files) q
                                = dget st.files q
                            rw [dget, if_neg hq1]
                            exact hdf q hq2
                          · injection hp with h1 h2
                            injection h2 with h3
                            subst h1
                            subst h3
                            refine ⟨rfl, ?_⟩
                            simp [pathExists, dget]

/-- The `--all` loop preserves the table and attempts exactly the names it
is given, in order, regardless of per-model outcomes. -/
lemma convert_all_state (orc : Oracle) (out : String) :
    ∀ (names : List String) (st : St),
      ((convert_all orc out names st).1.models = st.models)
      ∧ ((convert_all orc out names st).2.map Prod.fst = names) := by
  intro names
  induction names with
  | nil => intro st; exact ⟨rfl, rfl⟩
  | cons n rest ih =>
    intro st
    simp only [convert_all]
    constructor
    · rw [(ih ((convert_to_onnx orc n out 480 640 17 st).1)).1]
      exact (convert_to_onnx_state orc n out 480 640 17 st).1
    · rw [List.map_cons, (ih ((convert_to_onnx orc n out 480 640 17 st).1)).2]

/-- C1: requesting `realcugan-2x` or `realcugan-4x` makes `create_model`
raise `NotImplementedError` on the CUGAN architecture branch, and
`NotImplementedError` is exactly the exception type the `--all` loop's
first handler catches for skipping (any other exception lands in the
generic "Error converting" handler). -/
theorem claim_C1_cugan_not_implemented :
    (∀ fsl fe, (create_model ⟨MODELS, fsl, fe⟩ "realcugan-2x").2
        = .error (.notImplementedError "Real-CUGAN conversion requires additional setup"))
    ∧ (∀ fsl fe, (create_model ⟨MODELS, fsl, fe⟩ "realcugan-4x").2
        = .error (.notImplementedError "Real-CUGAN conversion requires additional setup"))
    ∧ (∀ e m, catch_in_all (.error e) = Outcome.skipped m ↔ e = .notImplementedError m) := by
  refine ⟨fun fsl fe => rfl, fun fsl fe => rfl, fun e m => ?_⟩
  cases e <;> simp [catch_in_all]

/-- Witness for C1 at the initial state. -/
theorem claim_C1_witness :
    (create_model st0 "realcugan-2x").2
      = .error (.notImplementedError "Real-CUGAN conversion requires additional setup") :=
  claim_C1_cugan_not_implemented.1 [] []

/-- C3: for a model name present in the table, if the `.pth` weight file
already exists in the output directory, `download_model` performs no network
fetch and changes no file (the state, including the fetch log, is returned
untouched) and returns that file's path. -/
theorem claim_C3_existing_weights_not_refetched :
    ∀ (net : String → Nat) (name out : String) (st : St),
      (dget st.models name).isSome = true →
      pathExists st.files (out ++ "/" ++ name ++ ".pth") = true →
      download_model net name out st = (st, .ok (out ++ "/" ++ name ++ ".pth")) := by
  intro net name out st hin hex
  unfold download_model
  cases hdg : dget st.models name with
  | none => rw [hdg] at hin; simp at hin
  | some info =>
    dsimp only
    rw [if_pos hex]

/-- Witness for C3: a state that already holds the weight file. -/
theorem claim_C3_witness :
    download_model okOracle.net "realcugan-2x" "models"
        ⟨MODELS, [("models/realcugan-2x.pth", 5)], []⟩
      = (⟨MODELS, [("models/realcugan-2x.pth", 5)], []⟩,
         .ok ("models" ++ "/" ++ "realcugan-2x" ++ ".pth")) :=
  claim_C3_existing_weights_not_refetched okOracle.net "realcugan-2x" "models"
    ⟨MODELS, [("models/realcugan-2x.pth", 5)], []⟩ (by decide) (by decide)

/-- C4: with `--list`, `main` prints exactly the keys of the `MODELS` table
(every key, nothing else), performs no download or conversion, and leaves
the state untouched. -/
theorem claim_C4_list_enumerates_keys :
    ∀ (orc : Oracle) (m : Option String) (a : Bool) (od : Option String) (st : St),
      st.models = MODELS →
      main orc ⟨m, a, true, od⟩ st = ⟨st, MODELS.map Prod.fst, [], .ok ()⟩ := by
  intro orc m a od st h
  have hm : main orc ⟨m, a, true, od⟩ st
      = ⟨st, (list_models st.models).1, [], (list_models st.models).2⟩ := rfl
  rw [hm, h]
  rfl

/-- Witness for C4 at the initial state. -/
theorem claim_C4_witness :
    main okOracle ⟨none, false, true, none⟩ st0 = ⟨st0, MODELS.map Prod.fst, [], .ok ()⟩ :=
  claim_C4_list_enumerates_keys okOracle none false none st0 rfl

/-- Per-entry key requirements of the claim: `url`, `scale`, `arch` and
`description` always; `num_feat` and `num_conv` for `SRVGGNetCompact`;
`num_feat` and `num_block` for `RRDBNet`. -/
def required_keys_ok (info : ModelInfo) : Bool :=
  info.url.isSome && info.scale.isSome && info.arch.isSome && info.description.isSome
  && (if info.arch = some "SRVGGNetCompact"
      then info.num_feat.isSome && info.num_conv.isSome else true)
  && (if info.arch = some "RRDBNet"
      then info.num_feat.isSome && info.num_block.isSome else true)

/-- C5: every `MODELS` entry has the keys required for its architecture
family, and consequently `create_model` never raises `KeyError` for any key
of the table, whatever the rest of the state is. -/
theorem claim_C5_models_table_well_formed :
    (MODELS.all fun p => required_keys_ok p.2) = true
    ∧ (∀ name ∈ MODELS.map Prod.fst, ∀ fsl fe k,
        (create_model ⟨MODELS, fsl, fe⟩ name).2 ≠ .error (.keyError k)) := by
  refine ⟨by decide, ?_⟩
  intro name hname fsl fe k
  fin_cases hname <;> intro hcc <;>
    first
      | exact Except.noConfusion hcc
      | exact Exc.noConfusion (Except.error.inj hcc)

/-- Witness for C5 on the first table entry and the `url` key. -/
theorem claim_C5_witness :
    (create_model ⟨MODELS, [], []⟩ "realesrgan-anime-fast").2 ≠ .error (.keyError "url") :=
  claim_C5_models_table_well_formed.2 "realesrgan-anime-fast" (by decide) [] [] "url"

/-- C7: if the guarded third-party imports fail, the script prints the fixed
install-instruction message and exits with status 1 before parsing arguments
or doing any download, build or export work: the state comes back untouched
and `main` never runs. -/
theorem claim_C7_dependency_guard_exits :
    ∀ (orc : Oracle) (args : Args) (st : St),
      run_script false orc args st = .depExit 1 install_message st := by
  intro orc args st
  rfl

/-- C10: every `arch` field of the table is one of `SRVGGNetCompact`,
`RRDBNet` or `CUGAN`, so the "Unknown architecture" `ValueError` branch of
`create_model` is unreachable from the table's keys. -/
theorem claim_C10_unknown_arch_unreachable :
    (∀ p ∈ MODELS,
        p.2.arch = some "SRVGGNetCompact" ∨ p.2.arch = some "RRDBNet"
          ∨ p.2.arch = some "CUGAN")
    ∧ (∀ name ∈ MODELS.map Prod.fst, ∀ fsl fe m,
        (create_model ⟨MODELS, fsl, fe⟩ name).2 ≠ .error (.valueError m)) := by
  refine ⟨by decide, ?_⟩
  intro name hname fsl fe m
  fin_cases hname <;> intro hcc <;>
    first
      | exact Except.noConfusion hcc
      | exact Exc.noConfusion (Except.error.inj hcc)

/-- Witness for C10 on a CUGAN entry. -/
theorem claim_C10_witness :
    (create_model ⟨MODELS, [], []⟩ "realcugan-2x").2
      ≠ .error (.valueError "Unknown architecture: CUGAN") :=
  claim_C10_unknown_arch_unreachable.2 "realcugan-2x" (by decide) [] []
    "Unknown architecture: CUGAN"

/-- C2: a conversion failure is caught per model only in the `--all` path:
with `--all`, `main` returns normally whatever the per-model outcomes are
and still attempts every model of the table in order; with a single model
argument, an exception raised by the conversion propagates uncaught out of
`main`. -/
theorem claim_C2_per_model_catch_only_in_all :
    (∀ (orc : Oracle) (m : Option String) (od : Option String) (st : St),
        (main orc ⟨m, true, false, od⟩ st).result = .ok ()
        ∧ (main orc ⟨m, true, false, od⟩ st).attempts.map Prod.fst = st.models.map Prod.fst)
    ∧ (∀ (orc : Oracle) (name : String) (od : Option String) (st : St) (e : Exc),
        (convert_to_onnx orc name (resolve_output_dir od) 480 640 17 st).2 = .error e →
        (main orc ⟨some name, false, false, od⟩ st).result = .error e) := by
  constructor
  · intro orc m od st
    refine ⟨rfl, ?_⟩
    show (convert_all orc (resolve_output_dir od) (st.models.map Prod.fst) st).2.map Prod.fst
        = st.models.map Prod.fst
    exact (convert_all_state orc (resolve_output_dir od) (st.models.map Prod.fst) st).2
  · intro orc name od st e h
    show ((convert_to_onnx orc name (resolve_output_dir od) 480 640 17 st).2.map
        fun _ => ()) = .error e
    rw [h]
    rfl

/-- Witness for C2: a single `realcugan-2x` run propagates the
`NotImplementedError`, while an `--all` run still returns normally. -/
theorem claim_C2_witness :
    (main okOracle ⟨some "realcugan-2x", false, false, none⟩ st0).result
      = .error (.notImplementedError "Real-CUGAN conversion requires additional setup")
    ∧ (main okOracle ⟨none, true, false, none⟩ st0).result = .ok () :=
  ⟨claim_C2_per_model_catch_only_in_all.2 okOracle "realcugan-2x" none st0
      (.notImplementedError "Real-CUGAN conversion requires additional setup") (by decide),
   (claim_C2_per_model_catch_only_in_all.1 okOracle none none st0).1⟩

/-- C6: the `MODELS` table is read-only: `download_model`, `create_model`,
`convert_to_onnx` and `main` all return the table component of the state
exactly as they received it. -/
theorem claim_C6_models_table_read_only :
    (∀ net name out st, (download_model net name out st).1.models = st.models)
    ∧ (∀ st name, (create_model st name).1.models = st.models)
    ∧ (∀ orc name out h w ops st,
        (convert_to_onnx orc name out h w ops st).1.models = st.models)
    ∧ (∀ orc args st, (main orc args st).st.models = st.models) := by
  refine ⟨fun net name out st => (download_model_state net name out st).1,
          fun st name => rfl,
          fun orc name out h w ops st => (convert_to_onnx_state orc name out h w ops st).1,
          fun orc args st => ?_⟩
  unfold main
  by_cases hl : args.list = true
  · rw [if_pos hl]
  · rw [if_neg hl]
    by_cases ha : args.all = true
    · rw [if_pos ha]
      exact (convert_all_state orc (resolve_output_dir args.output_dir)
        (st.models.map Prod.fst) st).1
    · rw [if_neg ha]
      cases args.model with
      | some name =>
        exact (convert_to_onnx_state orc name (resolve_output_dir args.output_dir)
          480 640 17 st).1
      | none => rfl

/-- C8: whenever a conversion succeeds, `convert_to_onnx` has written the
single artifact `<name>.onnx` in the output directory — that path exists
afterwards, every path other than it and the model's `.pth` weight file is
untouched — and it returns exactly that path. -/
theorem claim_C8_single_onnx_artifact :
    ∀ (orc : Oracle) (name out : String) (h w ops : Nat) (st st' : St) (p : String),
      convert_to_onnx orc name out h w ops st = (st', .ok p) →
      p = out ++ "/" ++ name ++ ".onnx"
      ∧ pathExists st'.files p = true
      ∧ ∀ q, q ≠ out ++ "/" ++ name ++ ".onnx" → q ≠ out ++ "/" ++ name ++ ".pth" →
          dget st'.files q = dget st.files q := by
  intro orc name out h w ops st st' p hc
  obtain ⟨hm, hf, ho⟩ := convert_to_onnx_state orc name out h w ops st
  obtain ⟨hp, hex⟩ := ho st' p hc
  refine ⟨hp, hex, fun q h1 h2 => ?_⟩
  have hq := hf q h1 h2
  rw [hc] at hq
  exact hq

/-- Witness for C8: a fully successful conversion of the first model. -/
theorem claim_C8_witness :
    "models/realesrgan-anime-fast.onnx"
        = "models" ++ "/" ++ "realesrgan-anime-fast" ++ ".onnx"
    ∧ pathExists
        (convert_to_onnx okOracle "realesrgan-anime-fast" "models" 480 640 17 st0).1.files
        "models/realesrgan-anime-fast.onnx" = true
    ∧ ∀ q, q ≠ "models" ++ "/" ++ "realesrgan-anime-fast" ++ ".onnx" →
        q ≠ "models" ++ "/" ++ "realesrgan-anime-fast" ++ ".pth" →
        dget (convert_to_onnx okOracle "realesrgan-anime-fast" "models" 480 640 17 st0).1.files q
          = dget st0.files q :=
  claim_C8_single_onnx_artifact okOracle "realesrgan-anime-fast" "models" 480 640 17 st0
    (convert_to_onnx okOracle "realesrgan-anime-fast" "models" 480 640 17 st0).1
    "models/realesrgan-anime-fast.onnx" (by decide)

/-- C9: on the Real-CUGAN models, `convert_to_onnx` downloads and writes the
`.pth` weight file to the output directory before `create_model` raises
`NotImplementedError`, and the written file and fetch persist in the state
carried out of the failed call: the error path is not atomic. -/
theorem claim_C9_cugan_downloads_before_raise :
    ∀ (orc : Oracle) (out : String) (st : St), st.models = MODELS →
      (pathExists st.files (out ++ "/" ++ "realcugan-2x" ++ ".pth") = false →
        (convert_to_onnx orc "realcugan-2x" out 480 640 17 st).2
            = .error (.notImplementedError "Real-CUGAN conversion requires additional setup")
          ∧ dget (convert_to_onnx orc "realcugan-2x" out 480 640 17 st).1.files
              (out ++ "/" ++ "realcugan-2x" ++ ".pth")
            = some (orc.net "https://github.com/bilibili/ailab/releases/download/Real-CUGAN/up2x-latest-denoise3x.pth")
          ∧ (convert_to_onnx orc "realcugan-2x" out 480 640 17 st).1.fetched
            = st.fetched ++ ["https://github.com/bilibili/ailab/releases/download/Real-CUGAN/up2x-latest-denoise3x.pth"])
      ∧ (pathExists st.files (out ++ "/" ++ "realcugan-4x" ++ ".pth") = false →
        (convert_to_onnx orc "realcugan-4x" out 480 640 17 st).2
            = .error (.notImplementedError "Real-CUGAN conversion requires additional setup")
          ∧ dget (convert_to_onnx orc "realcugan-4x" out 480 640 17 st).1.files
              (out ++ "/" ++ "realcugan-4x" ++ ".pth")
            = some (orc.net "https://github.com/bilibili/ailab/releases/download/Real-CUGAN/up4x-latest-denoise3x.pth")
          ∧ (convert_to_onnx orc "realcugan-4x" out 480 640 17 st).1.fetched
            = st.fetched ++ ["https://github.com/bilibili/ailab/releases/download/Real-CUGAN/up4x-latest-denoise3x.pth"]) := by
  intro orc out st hmdl
  obtain ⟨ms, fsl, fe⟩ := st
  dsimp only at hmdl
  subst hmdl
  constructor
  · intro hex
    try dsimp only at hex
    have hdl : download_model orc.net "realcugan-2x" out ⟨MODELS, fsl, fe⟩
        = (⟨MODELS,
            (out ++ "/" ++ "realcugan-2x" ++ ".pth",
             orc.net "https://github.com/bilibili/ailab/releases/download/Real-CUGAN/up2x-latest-denoise3x.pth") :: fsl,
            fe ++ ["https://github.com/bilibili/ailab/releases/download/Real-CUGAN/up2x-latest-denoise3x.pth"]⟩,
           .ok (out ++ "/" ++ "realcugan-2x" ++ ".pth")) := by
      unfold download_model
      try dsimp only
      rw [show dget MODELS "realcugan-2x"
          = some { url := some "https://github.com/bilibili/ailab/releases/download/Real-CUGAN/up2x-latest-denoise3x.pth",
                   scale := some 2, arch := some "CUGAN", num_feat := none, num_conv := none,
                   num_block := none, pro := some false,
                   description := some "Real-CUGAN 2x - Conservative anime upscaling with denoising" } from rfl]
      try dsimp only
      rw [if_neg (by simp [hex])]
    have hcv : convert_to_onnx orc "realcugan-2x" out 480 640 17 ⟨MODELS, fsl, fe⟩
        = (⟨MODELS,
            (out ++ "/" ++ "realcugan-2x" ++ ".pth",
             orc.net "https://github.com/bilibili/ailab/releases/download/Real-CUGAN/up2x-latest-denoise3x.pth") :: fsl,
            fe ++ ["https://github.com/bilibili/ailab/releases/download/Real-CUGAN/up2x-latest-denoise3x.pth"]⟩,
           .error (.notImplementedError "Real-CUGAN conversion requires additional setup")) := by
      unfold convert_to_onnx
      try dsimp only
      rw [show dget MODELS "realcugan-2x"
          = some { url := some "https://github.com/bilibili/ailab/releases/download/Real-CUGAN/up2x-latest-denoise3x.pth",
                   scale := some 2, arch := some "CUGAN", num_feat := none, num_conv := none,
                   num_block := none, pro := some false,
                   description := some "Real-CUGAN 2x - Conservative anime upscaling with denoising" } from rfl]
      try dsimp only
      rw [hdl]
      try dsimp only
      rfl
    rw [hcv]
    exact ⟨rfl, by simp [dget], rfl⟩
  · intro hex
    try dsimp only at hex
    have hdl : download_model orc.net "realcugan-4x" out ⟨MODELS, fsl, fe⟩
        = (⟨MODELS,
            (out ++ "/" ++ "realcugan-4x" ++ ".pth",
             orc.net "https://github.com/bilibili/ailab/releases/download/Real-CUGAN/up4x-latest-denoise3x.pth") :: fsl,
            fe ++ ["https://github.com/bilibili/ailab/releases/download/Real-CUGAN/up4x-latest-denoise3x.pth"]⟩,
           .ok (out ++ "/" ++ "realcugan-4x" ++ ".pth")) := by
      unfold download_model
      try dsimp only
      rw [show dget MODELS "realcugan-4x"
          = some { url := some "https://github.com/bilibili/ailab/releases/download/Real-CUGAN/up4x-latest-denoise3x.pth",
                   scale := some 4, arch := some "CUGAN", num_feat := none, num_conv := none,
                   num_block := none, pro := some false,
                   description := some "Real-CUGAN 4x - High quality anime upscaling with denoising" } from rfl]
      try dsimp only
      rw [if_neg (by simp [hex])]
    have hcv : convert_to_onnx orc "realcugan-4x" out 480 640 17 ⟨MODELS, fsl, fe⟩
        = (⟨MODELS,
            (out ++ "/" ++ "realcugan-4x" ++ ".pth",
             orc.net "https://github.com/bilibili/ailab/releases/download/Real-CUGAN/up4x-latest-denoise3x.pth") :: fsl,
            fe ++ ["https://github.com/bilibili/ailab/releases/download/Real-CUGAN/up4x-latest-denoise3x.pth"]⟩,
           .error (.notImplementedError "Real-CUGAN conversion requires additional setup")) := by
      unfold convert_to_onnx
      try dsimp only
      rw [show dget MODELS "realcugan-4x"
          = some { url := some "https://github.com/bilibili/ailab/releases/download/Real-CUGAN/up4x-latest-denoise3x.pth",
                   scale := some 4, arch := some "CUGAN", num_feat := none, num_conv := none,
                   num_block := none, pro := some false,
                   description := some "Real-CUGAN 4x - High quality anime upscaling with denoising" } from rfl]
      try dsimp only
      rw [hdl]
      try dsimp only
      rfl
    rw [hcv]
    exact ⟨rfl, by simp [dget], rfl⟩

/-- Witness for C9 from a fresh state. -/
theorem claim_C9_witness :
    (convert_to_onnx okOracle "realcugan-2x" "models" 480 640 17 st0).2
      = .error (.notImplementedError "Real-CUGAN conversion requires additional setup")
    ∧ dget (convert_to_onnx okOracle "realcugan-2x" "models" 480 640 17 st0).1.files
        ("models" ++ "/" ++ "realcugan-2x" ++ ".pth")
      = some (okOracle.net "https://github.com/bilibili/ailab/releases/download/Real-CUGAN/up2x-latest-denoise3x.pth")
    ∧ (convert_to_onnx okOracle "realcugan-2x" "models" 480 640 17 st0).1.fetched
      = st0.fetched ++ ["https://github.com/bilibili/ailab/releases/download/Real-CUGAN/up2x-latest-denoise3x.pth"] :=
  (claim_C9_cugan_downloads_before_raise okOracle "models" st0 rfl).1 (by decide)

end ConvertModel
